import Mathlib

/-!
Verification of the `financial_calculations` repository against its
natural-language specification.

The Python sources (`bond_calculations.py`, `asset_calculations.py`) are
shallowly embedded over exact rationals: Python floats become `ℚ`, integer
arguments become `ℕ`, and every function is translated loop-for-loop from the
source.  Where numpy produces IEEE special values (NaN/±∞) instead of raising,
those values are modelled explicitly by the `NpFloat` type; exact rational
arithmetic stands in for double-precision arithmetic, which is adequate for
every claim here (they concern formulas, counts and error behaviour, not
rounding).
-/

namespace FinancialCalculations

/-- The coupon-discounting loop of `bond_price`
(`for t in range(1, total_payments + 1): present_coupon_value += coupon_payment / (1 + discount_rate) ** t`),
written as a recursion on the number of completed iterations. -/
def presentCouponValue (coupon_payment discount_rate : ℚ) : ℕ → ℚ
  | 0 => 0
  | t + 1 => presentCouponValue coupon_payment discount_rate t +
      coupon_payment / (1 + discount_rate) ^ (t + 1)

/-- Embedding of `bond_price` (src/bond_calculations.py, lines 7-34). -/
def bond_price (nominal coupon ytm : ℚ) (maturity freq : ℕ) : ℚ :=
  let total_payments := maturity * freq
  let coupon_payment := nominal * coupon / (freq : ℚ)
  let discount_rate := ytm / (freq : ℚ)
  let present_coupon_value := presentCouponValue coupon_payment discount_rate total_payments
  let present_nominal_value := nominal / (1 + discount_rate) ^ total_payments
  present_coupon_value + present_nominal_value

/-- The numerator loop of `bond_duration`: for `t` in `1..total_periods`,
add `t * coupon_payment / (1+period_yield)^t` except at `t = total_periods`,
where the source adds `total_periods * (nominal + coupon_payment) / (1+period_yield)^total_periods`. -/
def durationNumerator (nominal coupon_payment period_yield : ℚ) (total_periods : ℕ) : ℕ → ℚ
  | 0 => 0
  | t + 1 => durationNumerator nominal coupon_payment period_yield total_periods t +
      (if t + 1 ≠ total_periods then
        ((t + 1 : ℕ) : ℚ) * coupon_payment / (1 + period_yield) ^ (t + 1)
      else
        ((total_periods : ℕ) : ℚ) * (nominal + coupon_payment) / (1 + period_yield) ^ total_periods)

/-- Embedding of `bond_duration` (src/bond_calculations.py, lines 38-71).
Note the source computes `price` by calling `bond_price(..., freq=2)` with the
frequency hard-coded to 2, while every other quantity uses the `freq` argument. -/
def bond_duration (nominal coupon ytm : ℚ) (maturity freq : ℕ) : ℚ × ℚ :=
  let price := bond_price nominal coupon ytm maturity 2
  let coupon_payment := nominal * coupon / (freq : ℚ)
  let total_periods := freq * maturity
  let period_yield := ytm / (freq : ℚ)
  let numerator := durationNumerator nominal coupon_payment period_yield total_periods total_periods
  let duration := numerator / price / (freq : ℚ)
  let mod_duration := duration / (1 + ytm / (freq : ℚ))
  (duration, mod_duration)

/-- Embedding of `bond_convexity` (src/bond_calculations.py, lines 75-101).
All three internal `bond_price` calls in the source pass `freq=2`; the `freq`
parameter is accepted but unused. -/
def bond_convexity (nominal coupon ytm : ℚ) (maturity freq : ℕ) : ℚ :=
  let dy : ℚ := 1 / 100
  let price_minus := bond_price nominal coupon (ytm - dy) maturity 2
  let price_plus := bond_price nominal coupon (ytm + dy) maturity 2
  let price := bond_price nominal coupon ytm maturity 2
  (price_plus + price_minus - 2 * price) / (price * dy ^ 2)

/-- Embedding of `bond_ytm` (src/bond_calculations.py, lines 105-125). -/
def bond_ytm (nominal market_price coupon : ℚ) (maturity : ℕ) : ℚ :=
  let coupon_payment := nominal * coupon
  let numerator := coupon_payment + (nominal - market_price) / (maturity : ℚ)
  let denominator := (nominal + market_price) / 2
  numerator / denominator

/-- Model of `np.arange(start, stop, step)` over exact rationals: the element
count is `ceil((stop - start) / step)` clamped at zero, and element `k` is
`start + k * step`.  (The `step = 0` case, where numpy raises, is outside every
claim and is irrelevantly mapped to the empty list.) -/
def arange (start stop step : ℚ) : List ℚ :=
  let n : ℕ := (⌈(stop - start) / step⌉).toNat
  (List.range n).map fun (k : ℕ) => start + (k : ℚ) * step

/-- The source's default `yield_changes` list `[-0.15, 0.15, 0.0001]`. -/
def defaultYieldChanges : ℚ × ℚ × ℚ := (-(3 / 20), 3 / 20, 1 / 10000)

/-- Embedding of `adjusted_bond_price` (src/bond_calculations.py, lines
129-164), `return_yields=False` branch.  The source passes `freq=2` to all
three helper calls, so its `freq` parameter is accepted but unused; the loop
appends `three * price` with `three = (-duration * i) + (1/2 * conv * i**2) + 1`. -/
def adjusted_bond_price (nominal coupon ytm : ℚ) (maturity freq : ℕ)
    (yield_changes : ℚ × ℚ × ℚ) : List ℚ :=
  let yield_change_range := arange yield_changes.1 yield_changes.2.1 yield_changes.2.2
  let duration := (bond_duration nominal coupon ytm maturity 2).2
  let conv := bond_convexity nominal coupon ytm maturity 2
  let price := bond_price nominal coupon ytm maturity 2
  yield_change_range.map fun i => (-duration * i + 1 / 2 * conv * i ^ 2 + 1) * price

/-- The specification's pricing formula:
`PV = Σ_{t=1..N} coupon_payment/(1+r)^t + nominal/(1+r)^N` with
`N = maturity*freq`, `r = ytm/freq`, `coupon_payment = nominal*coupon/freq`. -/
def bondPriceSpec (nominal coupon ytm : ℚ) (maturity freq : ℕ) : ℚ :=
  let N := maturity * freq
  let r := ytm / (freq : ℚ)
  let coupon_payment := nominal * coupon / (freq : ℚ)
  (Finset.Icc 1 N).sum (fun t => coupon_payment / (1 + r) ^ t) + nominal / (1 + r) ^ N

/-- `np.mean`: sum over length (the empty case, where numpy emits NaN, is handled
at `npMeanF` below for the one claim that needs it). -/
def npMean (xs : List ℚ) : ℚ := xs.sum / (xs.length : ℚ)

/-- `np.var` with its default `ddof=0`: mean squared deviation, normalised by `n`. -/
def npVar (xs : List ℚ) : ℚ :=
  ((xs.map fun x => (x - npMean xs) ^ 2).sum) / (xs.length : ℚ)

/-- The `[0][1]` entry of `np.cov(xs, ys)` with its default `ddof=1`:
sample covariance, normalised by `n - 1`. -/
def npCovSample (xs ys : List ℚ) : ℚ :=
  ((List.zipWith (fun x y => (x - npMean xs) * (y - npMean ys)) xs ys).sum) /
    ((xs.length : ℚ) - 1)

/-- Embedding of `beta` (src/asset_calculations.py, lines 22-34):
`np.cov(index_returns, asset_returns)[0][1] / np.var(index_returns)`.
Note the numerator is normalised by `n - 1` and the denominator by `n`. -/
def beta (index_returns asset_returns : List ℚ) : ℚ :=
  npCovSample index_returns asset_returns / npVar index_returns

/-- Population covariance (normalised by `n`), the estimator consistent with
`np.var`'s default; used to state what a consistently-normalised `beta` returns. -/
def npCovPop (xs ys : List ℚ) : ℚ :=
  ((List.zipWith (fun x y => (x - npMean xs) * (y - npMean ys)) xs ys).sum) /
    (xs.length : ℚ)

/-- Sample variance (normalised by `n - 1`), the estimator consistent with
`np.cov`'s default. -/
def sampleVar (xs : List ℚ) : ℚ :=
  ((xs.map fun x => (x - npMean xs) ^ 2).sum) / ((xs.length : ℚ) - 1)

/-- A double-precision value as numpy's arithmetic produces it: a finite value
(kept exact as a rational) or one of the non-finite results NaN, +∞, −∞.
numpy emits these, with a runtime warning at most, instead of raising. -/
inductive NpFloat where
  | fin : ℚ → NpFloat
  | nan : NpFloat
  | inf : NpFloat
  | ninf : NpFloat
deriving DecidableEq

/-- Whether a numpy value is an ordinary finite number. -/
def NpFloat.isFinite : NpFloat → Bool
  | .fin _ => true
  | _ => false

/-- IEEE-754 division as numpy performs it: finite/0 gives ±∞ (or NaN for 0/0),
NaN propagates, ∞/∞ is NaN. -/
def npDivF : NpFloat → NpFloat → NpFloat
  | .nan, _ => .nan
  | _, .nan => .nan
  | .fin a, .fin b =>
      if b = 0 then (if a = 0 then .nan else if 0 < a then .inf else .ninf) else .fin (a / b)
  | .fin _, .inf => .fin 0
  | .fin _, .ninf => .fin 0
  | .inf, .fin b => if 0 ≤ b then .inf else .ninf
  | .ninf, .fin b => if 0 ≤ b then .ninf else .inf
  | .inf, .inf => .nan
  | .inf, .ninf => .nan
  | .ninf, .inf => .nan
  | .ninf, .ninf => .nan

/-- IEEE-754 multiplication: NaN propagates, `0 * ±∞` is NaN, signs multiply. -/
def npMulF : NpFloat → NpFloat → NpFloat
  | .nan, _ => .nan
  | _, .nan => .nan
  | .fin a, .fin b => .fin (a * b)
  | .fin a, .inf => if a = 0 then .nan else if 0 < a then .inf else .ninf
  | .fin a, .ninf => if a = 0 then .nan else if 0 < a then .ninf else .inf
  | .inf, .fin b => if b = 0 then .nan else if 0 < b then .inf else .ninf
  | .ninf, .fin b => if b = 0 then .nan else if 0 < b then .ninf else .inf
  | .inf, .inf => .inf
  | .inf, .ninf => .ninf
  | .ninf, .inf => .ninf
  | .ninf, .ninf => .inf

/-- `np.sqrt` on the model.  On finite non-negative rationals the exact square
root is generally irrational, so `Rat.sqrt` stands in for it; it agrees with the
true square root at `0` and at perfect squares and preserves sign and
finiteness, which is everything the claims below inspect. -/
def npSqrtF : NpFloat → NpFloat
  | .fin q => if q < 0 then .nan else .fin (Rat.sqrt q)
  | .nan => .nan
  | .inf => .inf
  | .ninf => .nan

/-- `np.mean` with numpy's empty-input behaviour: NaN (plus a warning) on `[]`. -/
def npMeanF (xs : List ℚ) : NpFloat :=
  if xs.length = 0 then .nan else .fin (npMean xs)

/-- `.std()` (numpy default `ddof=0`) with numpy's empty-input behaviour: NaN on
`[]`, otherwise the square root of the population variance (via `npSqrtF`). -/
def npStdF (xs : List ℚ) : NpFloat :=
  if xs.length = 0 then .nan else npSqrtF (.fin (npVar xs))

/-- Embedding of `sharpe_ratio` (src/asset_calculations.py, lines 5-18):
`np.sqrt(252) * (excess_rets.mean() / excess_rets.std())` with
`excess_rets = asset_returns - rfr / 252`.  The source performs no validation
and raises nothing; degenerate inputs flow through numpy's NaN/∞ arithmetic. -/
def sharpe_ratio (asset_returns : List ℚ) (rfr : ℚ) : NpFloat :=
  let excess_rets := asset_returns.map fun r => r - rfr / 252
  npMulF (npSqrtF (.fin 252)) (npDivF (npMeanF excess_rets) (npStdF excess_rets))

/-- The duration formula as the specification words it: identical to
`bond_duration` except that `price` is `bond_price` on the same spec — the same
`freq` — where the source hard-codes `freq=2` in its `bond_price` call. -/
def bondDurationSpec (nominal coupon ytm : ℚ) (maturity freq : ℕ) : ℚ × ℚ :=
  let price := bond_price nominal coupon ytm maturity freq
  let coupon_payment := nominal * coupon / (freq : ℚ)
  let total_periods := freq * maturity
  let period_yield := ytm / (freq : ℚ)
  let numerator := durationNumerator nominal coupon_payment period_yield total_periods total_periods
  let duration := numerator / price / (freq : ℚ)
  let mod_duration := duration / (1 + ytm / (freq : ℚ))
  (duration, mod_duration)

/-- The convexity formula with every `bond_price` call taken at the spec's own
`freq` (the source hard-codes `freq=2` in all three calls). -/
def bondConvexitySpec (nominal coupon ytm : ℚ) (maturity freq : ℕ) : ℚ :=
  let dy : ℚ := 1 / 100
  let price_minus := bond_price nominal coupon (ytm - dy) maturity freq
  let price_plus := bond_price nominal coupon (ytm + dy) maturity freq
  let price := bond_price nominal coupon ytm maturity freq
  (price_plus + price_minus - 2 * price) / (price * dy ^ 2)

/-- The scenario projection as claim C3 words it: one price per shift `dy` in
the swept range, each `(1 + (−modified_duration·dy) + 0.5·convexity·dy²) ×
base_price`, with base price, modified duration and convexity computed from the
spec's own fields including its `freq`. -/
def adjustedBondPriceSpec (nominal coupon ytm : ℚ) (maturity freq : ℕ)
    (yield_changes : ℚ × ℚ × ℚ) : List ℚ :=
  let duration := (bondDurationSpec nominal coupon ytm maturity freq).2
  let conv := bondConvexitySpec nominal coupon ytm maturity freq
  let price := bond_price nominal coupon ytm maturity freq
  (arange yield_changes.1 yield_changes.2.1 yield_changes.2.2).map
    fun dy => (1 + -duration * dy + 1 / 2 * conv * dy ^ 2) * price

/-- `presentCouponValue` is the partial sum of the discounted coupons. -/
theorem presentCouponValue_eq_sum (cp r : ℚ) (n : ℕ) :
    presentCouponValue cp r n = (Finset.range n).sum (fun t => cp / (1 + r) ^ (t + 1)) := by
  induction n with
  | zero => simp [presentCouponValue]
  | succ k ih => rw [presentCouponValue, ih, Finset.sum_range_succ]

/-- `bond_price` in closed summation form. -/
theorem bond_price_eq_sum (nominal coupon ytm : ℚ) (maturity freq : ℕ) :
    bond_price nominal coupon ytm maturity freq =
      (Finset.range (maturity * freq)).sum
        (fun t => (nominal * coupon / (freq : ℚ)) / (1 + ytm / (freq : ℚ)) ^ (t + 1)) +
      nominal / (1 + ytm / (freq : ℚ)) ^ (maturity * freq) := by
  rw [bond_price, presentCouponValue_eq_sum]

/-- The loop of `bond_price` computes exactly the specification's sum. -/
theorem bond_price_eq_bondPriceSpec (nominal coupon ytm : ℚ) (maturity freq : ℕ) :
    bond_price nominal coupon ytm maturity freq = bondPriceSpec nominal coupon ytm maturity freq := by
  rw [bond_price_eq_sum, bondPriceSpec, ← Nat.Ico_succ_right, Finset.sum_Ico_eq_sum_range]
  simp [Nat.add_comm 1]

/-- The number of points `arange` sweeps is `⌈(stop − start)/step⌉`, clamped at 0. -/
theorem arange_length (s e st : ℚ) : (arange s e st).length = (⌈(e - s) / st⌉).toNat := by
  unfold arange
  rw [List.length_map, List.length_range]

/-- C1: for every BondSpec with `nominal > 0`, `coupon_rate ≥ 0`,
`payment_frequency freq ≥ 1`, `N = maturity_years*freq` a positive integer and
`r = ytm/freq > -1`, `bond_price` returns exactly
`Σ_{t=1..N} coupon_payment/(1+r)^t + nominal/(1+r)^N` with
`coupon_payment = nominal*coupon/freq`. -/
theorem C1_bond_price_matches_formula (nominal coupon ytm : ℚ) (maturity freq : ℕ)
    (hnom : 0 < nominal) (hcoup : 0 ≤ coupon) (hfreq : 1 ≤ freq)
    (hN : 0 < maturity * freq) (hr : -1 < ytm / (freq : ℚ)) :
    bond_price nominal coupon ytm maturity freq =
      bondPriceSpec nominal coupon ytm maturity freq :=
  bond_price_eq_bondPriceSpec nominal coupon ytm maturity freq

/-- Witness for C1 at nominal 100, coupon 5%, ytm 5%, 10 years, semiannual. -/
theorem C1_witness :
    0 < (100 : ℚ) ∧ 0 ≤ (1 / 20 : ℚ) ∧ 1 ≤ 2 ∧ 0 < 10 * 2 ∧
      -1 < (1 / 20 : ℚ) / ((2 : ℕ) : ℚ) ∧
      bond_price 100 (1 / 20) (1 / 20) 10 2 = bondPriceSpec 100 (1 / 20) (1 / 20) 10 2 :=
  ⟨by norm_num, by norm_num, by norm_num, by norm_num, by norm_num,
    C1_bond_price_matches_formula 100 (1 / 20) (1 / 20) 10 2 (by norm_num) (by norm_num)
      (by norm_num) (by norm_num) (by norm_num)⟩

/-- C5 counterexample: the claim says `bond_price` fails with `InvalidBondSpec`
and never returns a numeric value when `r ≤ -1` or `N` is not a positive
integer.  The source performs no validation: at `ytm = -4`, `freq = 1`
(so `r = -4 ≤ -1`) it returns `-100/3`, and at `maturity = 0` (so `N = 0`,
not positive) it returns the nominal, `100`. -/
theorem C5_counterexample :
    bond_price 100 0 (-4) 1 1 = -(100 / 3) ∧ bond_price 100 (1 / 20) (1 / 20) 0 2 = 100 := by
  constructor
  · simp [bond_price, presentCouponValue]
    norm_num
  · simp [bond_price, presentCouponValue]

/-- C5 amended: `bond_price` performs no input validation and raises no
`InvalidBondSpec`: on every input expressible in the embedding (any integer
period count, any rational yield with per-period rate other than the
division-by-zero point `r = -1`) it returns the numeric value of the
discounted-cashflow formula, and at `N = 0` in particular it returns `nominal`. -/
theorem C5_no_validation (nominal coupon ytm : ℚ) (maturity freq : ℕ) :
    bond_price nominal coupon ytm maturity freq =
      bondPriceSpec nominal coupon ytm maturity freq ∧
    bond_price nominal coupon ytm 0 freq = nominal := by
  refine ⟨bond_price_eq_bondPriceSpec nominal coupon ytm maturity freq, ?_⟩
  simp [bond_price, presentCouponValue]

/-- C7 counterexample: with the default `yield_changes = [-0.15, 0.15, 0.0001]`
the swept range has `⌈0.3/0.0001⌉ = 3000` points, not the 300 the claim states
(shown here on a concrete bond: nominal 100, coupon 6%, ytm 6%, 10 years). -/
theorem C7_counterexample :
    (adjusted_bond_price 100 (3 / 50) (3 / 50) 10 2 defaultYieldChanges).length ≠ 300 := by
  have h : (adjusted_bond_price 100 (3 / 50) (3 / 50) 10 2 defaultYieldChanges).length = 3000 := by
    unfold adjusted_bond_price defaultYieldChanges
    rw [List.length_map, arange_length]
    rw [show ((3 / 20 : ℚ) - -(3 / 20)) / (1 / 10000) = ((3000 : ℕ) : ℚ) by norm_num]
    rw [Int.ceil_natCast]
    rfl
  rw [h]
  omega

/-- C7 amended: with the default `yield_shift_range` the returned sequence of
projected prices has exactly 3000 elements, for every bond input. -/
theorem C7_default_range_has_3000_points (nominal coupon ytm : ℚ) (maturity freq : ℕ) :
    (adjusted_bond_price nominal coupon ytm maturity freq defaultYieldChanges).length = 3000 := by
  unfold adjusted_bond_price defaultYieldChanges
  rw [List.length_map, arange_length]
  rw [show ((3 / 20 : ℚ) - -(3 / 20)) / (1 / 10000) = ((3000 : ℕ) : ℚ) by norm_num]
  rw [Int.ceil_natCast]
  rfl

/-- C8: `bond_ytm` applied to a bond priced at par (`market_price = nominal`)
returns exactly the coupon rate, for every `nominal ≠ 0` and `maturity ≠ 0`. -/
theorem C8_ytm_at_par (nominal coupon : ℚ) (maturity : ℕ)
    (hnom : nominal ≠ 0) (hmat : maturity ≠ 0) :
    bond_ytm nominal nominal coupon maturity = coupon := by
  simp only [bond_ytm]
  rw [sub_self, zero_div, add_zero]
  rw [show (nominal + nominal) / 2 = nominal by ring]
  exact mul_div_cancel_left₀ coupon hnom

/-- Witness for C8 at nominal 100, coupon 6%, maturity 10. -/
theorem C8_witness :
    (100 : ℚ) ≠ 0 ∧ (10 : ℕ) ≠ 0 ∧ bond_ytm 100 100 (3 / 50) 10 = 3 / 50 :=
  ⟨by norm_num, by norm_num, C8_ytm_at_par 100 (3 / 50) 10 (by norm_num) (by norm_num)⟩

/-- C10: `adjusted_bond_price` ignores its `freq` argument — internally the
duration, convexity and base price are all evaluated with payment frequency 2 —
so any two frequencies produce identical output. -/
theorem C10_output_independent_of_freq (nominal coupon ytm : ℚ) (maturity f1 f2 : ℕ)
    (yield_changes : ℚ × ℚ × ℚ) :
    adjusted_bond_price nominal coupon ytm maturity f1 yield_changes =
      adjusted_bond_price nominal coupon ytm maturity f2 yield_changes := rfl

/-- C4: for every valid BondSpec (`nominal > 0`, `coupon_rate ≥ 0`,
`N = maturity*freq` a positive integer, per-period rate `> -1`), `bond_price`
is strictly decreasing in `ytm` with all other fields fixed: `y1 < y2` in the
valid range implies the price at `y1` strictly exceeds the price at `y2`. -/
theorem C4_bond_price_strictly_decreasing_in_ytm (nominal coupon y1 y2 : ℚ)
    (maturity freq : ℕ) (hnom : 0 < nominal) (hcoup : 0 ≤ coupon) (hfreq : 1 ≤ freq)
    (hN : 0 < maturity * freq) (hr1 : -1 < y1 / (freq : ℚ)) (hr2 : -1 < y2 / (freq : ℚ))
    (hlt : y1 < y2) :
    bond_price nominal coupon y2 maturity freq < bond_price nominal coupon y1 maturity freq := by
  have hf1 : (1 : ℚ) ≤ (freq : ℚ) := by exact_mod_cast hfreq
  have hf0 : (0 : ℚ) < (freq : ℚ) := by linarith
  have hd1 : (0 : ℚ) < 1 + y1 / (freq : ℚ) := by linarith
  have hdlt : 1 + y1 / (freq : ℚ) < 1 + y2 / (freq : ℚ) := by
    have := (div_lt_div_iff_of_pos_right hf0).mpr hlt
    linarith
  have hcp : 0 ≤ nominal * coupon / (freq : ℚ) := by positivity
  rw [bond_price_eq_sum, bond_price_eq_sum]
  apply add_lt_add_of_le_of_lt
  · apply Finset.sum_le_sum
    intro t _
    exact div_le_div_of_nonneg_left hcp (pow_pos hd1 (t + 1))
      (pow_le_pow_left₀ hd1.le hdlt.le (t + 1))
  · exact div_lt_div_of_pos_left hnom (pow_pos hd1 _)
      (pow_lt_pow_left₀ hdlt hd1.le (Nat.pos_iff_ne_zero.mp hN))

/-- Witness for C4: a 5%-coupon one-year semiannual bond is strictly cheaper at
ytm 10% than at ytm 0. -/
theorem C4_witness :
    0 < (100 : ℚ) ∧ 0 ≤ (1 / 20 : ℚ) ∧ 1 ≤ 2 ∧ 0 < 1 * 2 ∧
      -1 < (0 : ℚ) / ((2 : ℕ) : ℚ) ∧ -1 < (1 / 10 : ℚ) / ((2 : ℕ) : ℚ) ∧ (0 : ℚ) < 1 / 10 ∧
      bond_price 100 (1 / 20) (1 / 10) 1 2 < bond_price 100 (1 / 20) 0 1 2 :=
  ⟨by norm_num, by norm_num, by norm_num, by norm_num, by norm_num, by norm_num, by norm_num,
    C4_bond_price_strictly_decreasing_in_ytm 100 (1 / 20) 0 (1 / 10) 1 2 (by norm_num)
      (by norm_num) (by norm_num) (by norm_num) (by norm_num) (by norm_num) (by norm_num)⟩

/-- C2, code bug: `bond_duration` prices the bond with `bond_price(..., freq=2)`
hard-coded while computing its cashflow numerator with the caller's `freq`.  At
nominal 100, coupon 0, ytm 1, maturity 1, freq 1 the source returns a Macaulay
duration of `9/8`, while the claimed formula — the same numerator divided by
the price of the same spec (freq 1) — gives `1`. -/
theorem C2_duration_mixes_frequencies :
    (bond_duration 100 0 1 1 1).1 = 9 / 8 ∧ (bondDurationSpec 100 0 1 1 1).1 = 1 ∧
      ((9 : ℚ) / 8) ≠ 1 := by
  refine ⟨?_, ?_, by norm_num⟩
  · simp only [bond_duration, durationNumerator, bond_price, presentCouponValue]
    norm_num
  · simp only [bondDurationSpec, durationNumerator, bond_price, presentCouponValue]
    norm_num

/-- The range `[0.1, 0.2)` stepped by `0.2` contains the single point `0.1`. -/
theorem arange_single : arange (1 / 10) (1 / 5) (1 / 5) = [1 / 10] := by
  unfold arange
  rw [show ((1 / 5 : ℚ) - 1 / 10) / (1 / 5) = 1 / 2 by norm_num]
  rw [show ⌈(1 / 2 : ℚ)⌉ = 1 from by rw [Int.ceil_eq_iff]; constructor <;> norm_num]
  show List.map _ (List.range 1) = _
  rw [show List.range 1 = [0] from rfl]
  simp

/-- C3 counterexample: the claim says the projected prices are built from a
base price, modified duration and convexity computed from the spec's own fields
including its `freq`.  At freq 1 (nominal 100, coupon 0, ytm 1, maturity 1,
range `[0.1, 0.2)` step `0.2`) the source's output differs from that formula,
because the source evaluates all three quantities with `freq=2` hard-coded. -/
theorem C3_counterexample :
    adjusted_bond_price 100 0 1 1 1 (1 / 10, 1 / 5, 1 / 5) ≠
      adjustedBondPriceSpec 100 0 1 1 1 (1 / 10, 1 / 5, 1 / 5) := by
  unfold adjusted_bond_price adjustedBondPriceSpec
  rw [arange_single]
  simp only [bond_duration, bondDurationSpec, bond_convexity, bondConvexitySpec,
    bond_price, presentCouponValue, durationNumerator, List.map_cons, List.map_nil]
  norm_num

/-- C3 amended: `adjusted_bond_price` returns one projected price per shift
`dy` in the half-open swept range, each equal to
`(1 + (−modified_duration·dy) + 0.5·convexity·dy²) × base_price`, where the
base price, modified duration and convexity are computed once per call at the
spec's nominal ytm but with payment frequency hard-coded to 2, the spec's
`freq` being ignored. -/
theorem C3_projection_formula_at_freq_2 (nominal coupon ytm : ℚ) (maturity freq : ℕ)
    (s e st : ℚ) :
    adjusted_bond_price nominal coupon ytm maturity freq (s, e, st) =
      (arange s e st).map fun dy =>
        (1 + -(bond_duration nominal coupon ytm maturity 2).2 * dy +
            1 / 2 * bond_convexity nominal coupon ytm maturity 2 * dy ^ 2) *
          bond_price nominal coupon ytm maturity 2 := by
  simp only [adjusted_bond_price]
  congr 1
  funext dy
  ring

/-- The square root of zero is zero, also for the rational surrogate. -/
theorem rat_sqrt_zero : Rat.sqrt 0 = 0 := by simp

/-- A single observation has zero population variance. -/
theorem npVar_singleton (x : ℚ) : npVar [x] = 0 := by
  simp [npVar, npMean]

/-- Multiplying a non-finite value by a finite one never produces a finite value. -/
theorem npMulF_fin_left_nonfinite (s : ℚ) (v : NpFloat) (h : v.isFinite = false) :
    (npMulF (.fin s) v).isFinite = false := by
  cases v with
  | fin q => simp [NpFloat.isFinite] at h
  | nan => rfl
  | inf => simp only [npMulF]; split_ifs <;> rfl
  | ninf => simp only [npMulF]; split_ifs <;> rfl

/-- C6 counterexample: the claim says `sharpe_ratio` fails with a
`ComputationError` (returning no numeric or NaN result) on a constant-return
series.  On the constant series `[0, 0]` with `rfr = 0` the source raises
nothing and returns NaN (numpy's `0/0` with a warning). -/
theorem C6_counterexample : sharpe_ratio [0, 0] 0 = NpFloat.nan := by
  norm_num [sharpe_ratio, npMeanF, npStdF, npVar, npMean, npSqrtF, npDivF, npMulF, rat_sqrt_zero]

/-- C6 amended: `sharpe_ratio` performs no validation and raises nothing; when
the standard deviation of the excess daily returns is 0, or the series is empty
or has fewer than 2 observations, it returns a non-finite numpy value
(NaN or ±∞) to the caller instead of failing. -/
theorem C6_degenerate_input_gives_nonfinite (asset_returns : List ℚ) (rfr : ℚ)
    (h : npStdF (asset_returns.map fun r => r - rfr / 252) = NpFloat.fin 0 ∨
      asset_returns = [] ∨ asset_returns.length < 2) :
    (sharpe_ratio asset_returns rfr).isFinite = false := by
  have hstd : npStdF (asset_returns.map fun r => r - rfr / 252) = NpFloat.fin 0 ∨
      asset_returns.map (fun r => r - rfr / 252) = [] := by
    rcases h with h | h | h
    · exact Or.inl h
    · exact Or.inr (by rw [h]; rfl)
    · match asset_returns with
      | [] => exact Or.inr rfl
      | [a] =>
        refine Or.inl ?_
        show npStdF [a - rfr / 252] = NpFloat.fin 0
        simp [npStdF, npVar_singleton, npSqrtF, rat_sqrt_zero]
      | a :: b :: rest => simp at h; omega
  simp only [sharpe_ratio]
  apply npMulF_fin_left_nonfinite (Rat.sqrt 252)
  rcases hstd with h0 | hnil
  · have hne : (asset_returns.map fun r => r - rfr / 252).length ≠ 0 := by
      intro hl
      rw [npStdF, if_pos hl] at h0
      exact NpFloat.noConfusion h0
    rw [h0, npMeanF, if_neg hne]
    simp only [npDivF, if_pos rfl]
    split_ifs <;> rfl
  · rw [hnil]
    rfl

/-- Witness for C6 on the constant series `[1, 1]` (zero standard deviation):
the result is non-finite (numpy returns `+∞` there). -/
theorem C6_witness :
    (npStdF (([1, 1] : List ℚ).map fun r => r - 0 / 252) = NpFloat.fin 0 ∨
      ([1, 1] : List ℚ) = [] ∨ ([1, 1] : List ℚ).length < 2) ∧
      (sharpe_ratio [1, 1] 0).isFinite = false :=
  ⟨Or.inl (by norm_num [npStdF, npVar, npMean, npSqrtF, rat_sqrt_zero]),
    C6_degenerate_input_gives_nonfinite [1, 1] 0
      (Or.inl (by norm_num [npStdF, npVar, npMean, npSqrtF, rat_sqrt_zero]))⟩

/-- C9 counterexample: the claim says `beta` divides a covariance by a variance
computed with one consistent normalisation.  On `index = asset = [0, 1]` any
consistent normalisation gives exactly 1 (shown for both the `n`- and the
`(n−1)`-normalised estimators), but the source returns 2, because `np.cov`
defaults to `ddof=1` while `np.var` defaults to `ddof=0`. -/
theorem C9_counterexample :
    beta [0, 1] [0, 1] = 2 ∧ npCovPop [0, 1] [0, 1] / npVar [0, 1] = 1 ∧
      npCovSample [0, 1] [0, 1] / sampleVar [0, 1] = 1 ∧ (2 : ℚ) ≠ 1 := by
  norm_num [beta, npCovSample, npCovPop, npVar, sampleVar, npMean]

/-- C9 amended: for equal-length series with at least 2 observations, `beta`
returns the sample covariance (normalised by `n−1`) divided by the population
variance (normalised by `n`), i.e. `n/(n−1)` times the consistently-normalised
ratio. -/
theorem C9_beta_mixed_normalisation (index_returns asset_returns : List ℚ)
    (hlen : index_returns.length = asset_returns.length) (h2 : 2 ≤ index_returns.length) :
    beta index_returns asset_returns =
      ((index_returns.length : ℚ) / ((index_returns.length : ℚ) - 1)) *
        (npCovPop index_returns asset_returns / npVar index_returns) := by
  have hn : ((index_returns.length : ℚ)) ≠ 0 := by
    have : (2 : ℚ) ≤ (index_returns.length : ℚ) := by exact_mod_cast h2
    linarith
  have hn1 : ((index_returns.length : ℚ)) - 1 ≠ 0 := by
    have : (2 : ℚ) ≤ (index_returns.length : ℚ) := by exact_mod_cast h2
    intro hc
    rw [sub_eq_zero] at hc
    linarith [hc]
  unfold beta npCovSample npCovPop
  rw [show ((List.zipWith (fun x y => (x - npMean index_returns) * (y - npMean asset_returns))
      index_returns asset_returns).sum) / ((index_returns.length : ℚ) - 1) =
      ((index_returns.length : ℚ) / ((index_returns.length : ℚ) - 1)) *
      (((List.zipWith (fun x y => (x - npMean index_returns) * (y - npMean asset_returns))
      index_returns asset_returns).sum) / (index_returns.length : ℚ)) by
    field_simp
    ring]
  rw [mul_div_assoc]

/-- Witness for C9 on `index = [0, 1]`, `asset = [0, 2]` (beta 4 = 2 × 2). -/
theorem C9_witness :
    ([0, 1] : List ℚ).length = ([0, 2] : List ℚ).length ∧ 2 ≤ ([0, 1] : List ℚ).length ∧
      beta [0, 1] [0, 2] =
        ((([0, 1] : List ℚ).length : ℚ) / ((([0, 1] : List ℚ).length : ℚ) - 1)) *
          (npCovPop [0, 1] [0, 2] / npVar [0, 1]) :=
  ⟨rfl, by norm_num, C9_beta_mixed_normalisation [0, 1] [0, 2] rfl (by norm_num)⟩

end FinancialCalculations
